import Mathlib

/-
Verification of the coremltools MILBlob storage layer specification and the
MLModel global version constants against the repository.

Two source headers are present verbatim: mlmodel/src/Globals.hpp (specification
version constants) and mlmodel/tests/MLModelTests.hpp (the test declaration
list and its MLMODEL_TEST expansion). The storage layer itself
(StorageWriter, StorageReader, Span, MemoryMappedFileReader) is declared only
through its tests, so its behaviour is modelled from the specification text.
-/

/- ===== Globals.hpp: specification version constants ===== -/

/-- Version 1 shipped as iOS 11.0 (Globals.hpp). -/
def MLMODEL_SPECIFICATION_VERSION_IOS11 : Int := 1

/-- Version 2: fp16 weights and custom layers; shipped in iOS 11.2 (Globals.hpp). -/
def MLMODEL_SPECIFICATION_VERSION_IOS11_2 : Int := 2

/-- Version 3, shipped with iOS 12 (Globals.hpp). -/
def MLMODEL_SPECIFICATION_VERSION_IOS12 : Int := 3

/-- Version 4, shipped with iOS 13 (Globals.hpp). -/
def MLMODEL_SPECIFICATION_VERSION_IOS13 : Int := 4

/-- Version 5, shipped with iOS 14 (Globals.hpp). -/
def MLMODEL_SPECIFICATION_VERSION_IOS14 : Int := 5

/-- Version 6, shipped with iOS 15 (Globals.hpp). -/
def MLMODEL_SPECIFICATION_VERSION_IOS15 : Int := 6

/-- Version 7, shipped with iOS 16 (Globals.hpp). -/
def MLMODEL_SPECIFICATION_VERSION_IOS16 : Int := 7

/-- Version 8, shipped with iOS 17 (Globals.hpp). -/
def MLMODEL_SPECIFICATION_VERSION_IOS17 : Int := 8

/-- Version 9, shipped with iOS 18 (Globals.hpp). -/
def MLMODEL_SPECIFICATION_VERSION_IOS18 : Int := 9

/-- Version 10, shipped with iOS 26 (Globals.hpp). -/
def MLMODEL_SPECIFICATION_VERSION_IOS26 : Int := 10

/-- Globals.hpp: MLMODEL_SPECIFICATION_VERSION_NEWEST is defined as
MLMODEL_SPECIFICATION_VERSION_IOS26. -/
def MLMODEL_SPECIFICATION_VERSION_NEWEST : Int :=
  MLMODEL_SPECIFICATION_VERSION_IOS26

/-- Globals.hpp line 10: the preprocessor object definition
MLMODEL_SPECIFICATION_VERSION expands to MLMODEL_SPECIFICATION_VERSION_NEWEST. -/
def MLMODEL_SPECIFICATION_VERSION : Int :=
  MLMODEL_SPECIFICATION_VERSION_NEWEST

/-- The ten specification version constants of Globals.hpp, in source
(chronological OS release) order. -/
def mlmodelSpecificationVersions : List Int :=
  [MLMODEL_SPECIFICATION_VERSION_IOS11,
   MLMODEL_SPECIFICATION_VERSION_IOS11_2,
   MLMODEL_SPECIFICATION_VERSION_IOS12,
   MLMODEL_SPECIFICATION_VERSION_IOS13,
   MLMODEL_SPECIFICATION_VERSION_IOS14,
   MLMODEL_SPECIFICATION_VERSION_IOS15,
   MLMODEL_SPECIFICATION_VERSION_IOS16,
   MLMODEL_SPECIFICATION_VERSION_IOS17,
   MLMODEL_SPECIFICATION_VERSION_IOS18,
   MLMODEL_SPECIFICATION_VERSION_IOS26]

/- ===== MLModelTests.hpp: the MLMODEL_TEST expansion ===== -/

/-- A token of the C declaration produced by the test header: the `int`
keyword, an identifier, `(`, `)`, or `;`. -/
inductive CTok where
  | kwInt : CTok
  | ident (s : String) : CTok
  | lparen : CTok
  | rparen : CTok
  | semi : CTok
deriving DecidableEq, Repr

/-- MLMODEL_DECLARE_TEST(x) expands to the token sequence of the forward
declaration of x as a zero-argument function returning int: the text
of the replacement list in MLModelTests.hpp lines 1-3. -/
def MLMODEL_DECLARE_TEST (x : String) : List CTok :=
  [CTok.kwInt, CTok.ident x, CTok.lparen, CTok.rparen, CTok.semi]

/-- MLMODEL_TEST(x) from MLModelTests.hpp lines 5-9: when MLMODEL_RUN_TEST is
defined it expands through that definition (modelled as a substitution
function), otherwise through MLMODEL_DECLARE_TEST. The first argument is
the state of the MLMODEL_RUN_TEST preprocessor symbol: none when undefined. -/
def MLMODEL_TEST (runTestDef : Option (String → List CTok)) (x : String) :
    List CTok :=
  match runTestDef with
  | some f => f x
  | none => MLMODEL_DECLARE_TEST x

/-- Recognizer for the pure forward declaration of a zero-argument function
named t returning int: exactly the five tokens of the text int t(); with no
parameters between the parentheses and nothing else. -/
def isIntNullaryFwdDecl (ts : List CTok) (t : String) : Bool :=
  ts == [CTok.kwInt, CTok.ident t, CTok.lparen, CTok.rparen, CTok.semi]

/-- The test names listed in MLModelTests.hpp via MLMODEL_TEST(...), in
source order. -/
def mlmodelTestNames : List String :=
  ["testBasicSaveLoad",
   "testLinearModelBasic",
   "testTreeEnsembleBasic",
   "testOneHotEncoderBasic",
   "testLargeModel",
   "testVeryLargeModel",
   "testOptionalInputs",
   "testFeatureDescriptions",
   "testNNValidatorLoop",
   "testNNValidatorMissingInput",
   "testNNValidatorSimple",
   "testNNValidatorMissingOutput",
   "testNNValidatorBadInputs",
   "testNNValidatorBadInput",
   "testNNValidatorBadInput2",
   "testNNValidatorBadOutput",
   "testNNValidatorBadOutput2",
   "testNNMissingLayer",
   "testInnerProductDynamicQuantizationConversionParameterValidation",
   "testBatchedMatMulDynamicQuantizationConversionParameterValidation",
   "testRNNLayer",
   "testRNNLayer2",
   "testNNValidatorAllOptional",
   "testNNValidatorReshape3D",
   "testNNValidatorReshape4D",
   "testNNValidatorReshapeBad",
   "testNNCompilerValidation",
   "testNNCompilerValidationGoodProbBlob",
   "testNNCompilerValidationBadProbBlob",
   "testInvalidPooling",
   "testValidPooling3d",
   "testInvalidPooling3dNegativeKernelSize",
   "testInvalidPooling3dCostumPaddingSetForNonCustomPaddingType",
   "testValidGlobalPooling3d",
   "testInvalidGlobalPooling3dWrongNumberOfInputs",
   "testInvalidConvolutionNoPadding",
   "testInvalidConvolutionNoWeights",
   "testInvalidConvolutionNoBias",
   "testValidConvolution",
   "testValidDeconvolution",
   "testInvalidConvolution3DNegativePadding",
   "testInvalidConvolution3DNoBias",
   "testInvalidConvolution3DNoInputChannels",
   "testInvalidConvolution3DNoOutputChannels",
   "testInvalidConvolution3DNoWeights",
   "testInvalidConvolution3DNonPositiveDilation",
   "testInvalidConvolution3DNonPositiveGroups",
   "testInvalidConvolution3DNonPositiveKernelSize",
   "testInvalidConvolution3DNonPositiveStride",
   "testInvalidConvolution3DTwoInputs",
   "testInvalidConvolution3DWithOutputShape",
   "testValidConvolution3D",
   "testInvalidDeConvolution3DOutputShape",
   "testValidDeConvolution3D",
   "testInvalidEmbedding",
   "testInvalidEmbeddingBias",
   "testValidEmbedding",
   "testInvalidBatchnorm",
   "testValidComputeMeanVarBatchnorm",
   "testInvalidPaddingBorder",
   "testInvalidPaddingNoType",
   "testValidPadding",
   "testInvalidUpsample",
   "testInvalidUpsampleNearestNeighborsModeWithAlignCorners",
   "testValidUpsample",
   "testFractionalUpsample",
   "testValidUpsampleAlignCorners",
   "testUpsampleArgsortSpec",
   "testInvalidScaleBiasWeights",
   "testInvalidScaleWeights",
   "testInvalidScaleBiasLength",
   "testInvalidScaleLength",
   "testValidScale",
   "testValidScaleNoBias",
   "testValidCrop1",
   "testInvalidCrop1",
   "testValidCrop2",
   "testInvalidCrop2",
   "testInvalidCrop3",
   "testInvalidSlice",
   "testValidSlice1",
   "testValidSlice2",
   "testValidCustom",
   "testInvalidCustomNoName",
   "testInvalidCustomMultipleWeights",
   "testVisionFeatureScenePrintBasic",
   "testVisionFeatureObjectPrintBasic",
   "testAudioFeatureSoundPrintBasic",
   "testVggishPreprocessingBasic",
   "testSpecDowngrade",
   "testSpecDowngradefp16",
   "testSpecDowngradeFlexibleShapes",
   "testSpecDowngradeFlexibleShapes2",
   "testSpecDowngradePipeline",
   "testWordTaggerTransferLearningSpecIOS14",
   "testEmptyInputModel_downgradeToIOS18",
   "testMultiFunctionModel_downgradeToIOS18",
   "testBayesianProbitRegressionValidationBasic",
   "testRangeVal",
   "testRangeValDivide",
   "testShapeRange",
   "testSimpleNNShape",
   "testSimpleNNShapeBad",
   "testSimpleNNShapeBadOutput",
   "testSimple1DConv",
   "testPermuteShape",
   "testUpwardPass",
   "testSamePaddingConvolution",
   "testSamePaddingConvolution2",
   "testValidSoftmax",
   "testInvalidRank",
   "testInvalidSoftmax",
   "testInvalidSoftmax2",
   "testInvalidReduce",
   "testValidReduce",
   "testValidTransposeND",
   "testInvalidTransposeNdNoAxis",
   "testKNNValidatorNoPoints",
   "testKNNValidatorNoK",
   "testKNNValidatorNoDimension",
   "testKNNValidatorNoLabels",
   "testKNNValidatorWrongNumberOfLabels",
   "testKNNValidatorNoIndex",
   "testKNNValidatorLinearIndex",
   "testKNNValidatorSingleKdTreeIndex",
   "testKNNValidatorNoWeightingScheme",
   "testKNNValidatorNoDistanceFunction",
   "testInvalidDefaultOptionalValue",
   "testDefaultOptionalValueZeroIfNotSet",
   "testDefaultOptionalValueOnUnsupportedSpec",
   "testDefaultOptionalValueGood",
   "testKNNValidatorGood",
   "testEmptyKNNValidationGood",
   "testLabelTypeMismatchTest",
   "testNumberOfNeighborsWithDefaultValueInRange",
   "testNumberOfNeighborsWithDefaultValueOutOfRange",
   "testNumberOfNeighborsWithDefaultValueInSet",
   "testNumberOfNeighborsWithDefaultValueNotInSet",
   "testNumberOfNeighborsWithInvalidRange",
   "testNumberOfNeighborsWithInvalidSet",
   "testValidReorganizeData",
   "testInvalidReorganizeDataInputRank",
   "testInvalidReorganizeDataBlockSize",
   "testValidBranch",
   "testInvalidBranchOutputNotProduced1",
   "testInvalidBranchOutputNotProduced2",
   "testInvalidBranchBlobOverwrite",
   "testInvalidCopy",
   "testInvalidLoop1",
   "testInvalidLoop2",
   "testInvalidLoop3",
   "testInvalidLoop4",
   "testInvalidLoop5",
   "testInvalidLoopBreak",
   "testInvalidLoopContinue",
   "testInvalidRankInconsistency",
   "testInvalidExpandDims1",
   "testInvalidExpandDims2",
   "testInvalidSqueeze1",
   "testInvalidPoolingRank1",
   "testInvalidPoolingRank2",
   "testInvalidIOS13LayerOldRank",
   "testInvalidConcatNdWrongAxis",
   "testInvalidSoftmaxNdWrongAxis",
   "testInvalidSlidingWindowWrongAxis",
   "testInvalidReverseWrongDimLength",
   "testInvalidStackWrongAxis",
   "testInvalidSplitNdNoSplitSizesAndNumSplits",
   "testInvalidSplitNdWrongNumSplits",
   "testInvalidSplitNdWrongAxis",
   "testInvalidFillStaticNoTargetShape",
   "testInvalidBroadcastToStaticNoTargetShape",
   "testInvalidSliceStaticNoParams",
   "testInvalidClipWrongMinMax",
   "testInvalidFlattenTo2dWrongAxis",
   "testInvalidReshapeStaticNoTargetShape",
   "testInvalidRandomUniformDistributionWrongMinMax",
   "testInvalidRandomBernoulliDistributionWrongProb",
   "testInvalidReductionTypeWrongAxis",
   "testInvalidLayerNormalizationNoNormalizedShape",
   "testInvalidLayerNormalizationNoGammaOrBeta",
   "testInvalidLayerNormalizationWrongGammaOrBeta",
   "testInvalidConstantPad",
   "testInvalidArgsortWrongAxis",
   "testMultiFunctionSpecificationVersion",
   "testMultiFunctionDefaultFunctionName",
   "testMultiFunctionTopLevelFeatureDescriptionsMustBeEmpty",
   "testMultiFunctionEmptyInput",
   "testMultiFunctionAllowed",
   "testStateSpecificationVersion",
   "testStateFeatureDescriptionInInputs",
   "testStateFeatureIsNotFP16_shouldFail",
   "testStateFeatureIsOptional_shouldFail",
   "testStateFeatureHasNoDefaultShape_shouldFail",
   "testStateFeatureHasNoArrayType_shouldFail",
   "testStateFeature_ArrayUsesRangeFlexibleShape_shouldFail",
   "testStateFeature_ArrayUsesEnumeratedFlexibleShape_shouldFail",
   "testArrayFeature_Int8_SpecificationVersion",
   "testArrayFeature_DefaultOptionalValueOutOfRange_shouldFail",
   "testUpdatableModelSpecVersion",
   "testInvalidUpdatableModelQuantizedWeights",
   "testInvalidUpdatableModelQuantizedBias",
   "testValidUpdatableModelQuantizedWeightsAndBiasForNonUpdatableLayer",
   "testInvalidUpdatableModelWrongType",
   "testInvalidUpdatableModelWrongLayer",
   "testInvalidUpdatableModelWrongWeights",
   "testInvalidUpdatableModelWrongBiases",
   "testInvalidUpdatableModelNonUpdatableLayers",
   "testInvalidUpdatableModelwithCollidedLayerAndLossLayerNames",
   "testInvalidModelUnsupportedLayersForBP",
   "testInvalidUpdatableLayerMissingBias",
   "testInvalidCategoricalCrossEntropyLossLayerInputs",
   "testInvalidMeanSquaredErrorLossLayerInputs",
   "testInvalidModelInvalidSoftmax",
   "testValidModelValidMultipleSoftmax_1",
   "testValidModelValidMultipleSoftmax_2",
   "testValidModelMultipleSoftmaxOutputs",
   "testInvalidModelMultipleLoss",
   "testMissingUpdatableModelParameters",
   "testMissingMiniBatchSizeParameter",
   "testMissingLearningRateParameter",
   "testMissingBeta1Parameter",
   "testMissingBeta2Parameter",
   "testMissingEpsParameter",
   "testMissingEpochsParameter",
   "testValidUpdatableModelWith1024Layers",
   "testExistingShuffleWithMissingSeedParameter",
   "testNonUpdatablePipelineWithNonUpdatableModels",
   "testNonUpdatablePipelineWithOneUpdatableModel",
   "testNonUpdatablePipelineWithOneUpdatableModelInsidePipelineHierarchy",
   "testUpdatablePipelineWithNonUpdatableModels",
   "testUpdatablePipelineWithMultipleUpdatableModels",
   "testUpdatablePipelineWithOneUpdatableModel",
   "testUpdatablePipelineWithOneUpdatableModelInsidePipelineHierarchy",
   "testMiniBatchSizeOutOfAllowedRange",
   "testMiniBatchSizeOutOfAllowedSet",
   "testLearningRateOutOfAllowedRange",
   "testMomentumOutOfAllowedRange",
   "testBeta1OutOfAllowedRange",
   "testBeta2OutOfAllowedRange",
   "testEpsOutOfAllowedRange",
   "testEpochsOutOfAllowedRange",
   "testEpochsOutOfAllowedSet",
   "testFileWriterTestsNoAccess",
   "testFileWriterTestsOffsetNotAligned",
   "testFileWriterTestsReadData",
   "testFileWriterTestsWriteDataWithOffset",
   "testFileWriterTestsWriteToFile",
   "testMMapFileReaderTestsFileErrorEmpty",
   "testMMapFileReaderTestsFileErrorNotFound",
   "testMMapFileReaderTestsReadData",
   "testMMapFileReaderTestsReadStruct",
   "testSpanCastTestsBasics",
   "testSpanCastTestsFromInt4",
   "testSpanCastTestsToInt4",
   "testSpanTestsAccessImmutable",
   "testSpanTestsAccessMutable",
   "testSpanTestsConstInt4",
   "testSpanTestsConstUInt4",
   "testSpanTestsCopyAndAssignment",
   "testSpanTestsDefaultConstructor",
   "testSpanTestsEmpty",
   "testSpanTestsImplicitConstCopyCtor",
   "testSpanTestsInt4",
   "testSpanTestsIterationDynamicSlices",
   "testSpanTestsIterationIllegal",
   "testSpanTestsIterationMultipleDims",
   "testSpanTestsIterationStaticSlices",
   "testSpanTestsIteratorImmutable",
   "testSpanTestsIteratorImmutableExplicitBeginEnd",
   "testSpanTestsIteratorImmutableExplicitCRBeginCREnd",
   "testSpanTestsIteratorImmutableExplicitCbeginCend",
   "testSpanTestsIteratorImmutableExplicitRBeginREnd",
   "testSpanTestsIteratorMutable",
   "testSpanTestsIteratorMutableExplicitBeginEnd",
   "testSpanTestsIteratorMutableExplicitCRbeginCRend",
   "testSpanTestsIteratorMutableExplicitCbeginCend",
   "testSpanTestsIteratorMutableExplicitRbeginRend",
   "testSpanTestsMakeSpanArrayForcedImmutable",
   "testSpanTestsMakeSpanArrayImmutable",
   "testSpanTestsMakeSpanArrayMutable",
   "testSpanTestsMakeSpanVectorForcedImmutable",
   "testSpanTestsMakeSpanVectorForcedImmutableFromConst",
   "testSpanTestsMakeSpanVectorImmutable",
   "testSpanTestsMakeSpanVectorMutable",
   "testSpanTestsSlicingBounded",
   "testSpanTestsSlicingByDimension",
   "testSpanTestsSlicingByDimensionWithInvalidIndex",
   "testSpanTestsSlicingByInvalidDimension",
   "testSpanTestsSlicingIllegalBounds",
   "testSpanTestsSlicingUnbounded",
   "testSpanTestsSlicingUnboundedEdge",
   "testSpanTestsSlicingZeroLength",
   "testSpanTestsSpanOverload",
   "testSpanTestsStaticSizedAccessImmutable",
   "testSpanTestsStaticSizedAccessMutable",
   "testSpanTestsSubByteUIntValueAt",
   "testSpanTestsSubbyteIntValueAt",
   "testStorageIntegrationTestsReadDataWithIncorrectOffset",
   "testStorageIntegrationTestsReadDataWithIncorrectType",
   "testStorageIntegrationTestsWriteAndReadValues",
   "testStorageReaderTestsAllOffsets",
   "testStorageReaderTestsAllOffsetsWithEmptyBlobFile",
   "testStorageReaderTestsBasicProperties",
   "testStorageReaderTestsDataOffset",
   "testStorageReaderTestsIncorrectDType",
   "testStorageReaderTestsIncorrectMetadata",
   "testStorageReaderTestsInt8Data",
   "testStorageReaderTestsIsEncryptedWithEmptyBlobFile",
   "testStorageReaderTestsRawData",
   "testStorageReaderTestsThreeRecords",
   "testStorageReaderTestsTruncatedData",
   "testStorageReaderTestsTruncatedHeader",
   "testStorageReaderTestsTruncatedMetadata",
   "testStorageReaderTestsZeroRecords",
   "testStorageWriterTestsAlignment",
   "testStorageWriterTestsAppendToExistingFile",
   "testStorageWriterTestsSupportedTypes",
   "testInvalid_NoTrainingInputs",
   "testInvalid_OnlyModelInputs",
   "testInvalid_OnlyTarget",
   "testInvalid_OnlyPredictedFeatureName",
   "testInvalid_OnlyTargetAndPredictedFeatureName",
   "testInvalid_TargetAndFakeModelInputs",
   "testInvalid_PredictedFeatureNameAndFakeModelInputs",
   "testInvalid_TargetPredictedFeatureNameAndFakeModelInputs",
   "testInvalid_PredictedFeatureName",
   "testValid_TargetAndPredictedFeatureName",
   "testValid_TargetAndRealAndFakeTrainingInputs",
   "testValid_TargetOneOfTwoModelInputs",
   "testValid_TargetUnusedOneOfTwoModelInput",
   "testValid_1InferenceAnd3TrainingInputs",
   "testInvalid_Classifier_OnlyPredictedFeatureName",
   "testInvalid_Classifier_OnlyTarget",
   "testValid_Classifier_PredictedFeatureName",
   "testValid_Classifier_Target",
   "testValid_Classifier_PredictedFeatureNameAndTarget",
   "testInvalid_Classifier_PredictedFeatureNameWrongType",
   "testValid_WithMSE",
   "testValid_Pipeline"]

/-- Modelled from MLModelTests.hpp: the token stream the whole header
contributes to a translation unit: the concatenated expansion of
MLMODEL_TEST over every listed test name. -/
def headerExpansion (runTestDef : Option (String → List CTok)) : List CTok :=
  (mlmodelTestNames.map (MLMODEL_TEST runTestDef)).flatten

/- ===== The MILBlob storage layer, modelled from the specification ===== -/

/-- Modelled from the spec: the error taxonomy of section 7 for the storage
layer components that the claims exercise. -/
inductive BlobError where
  | sizeMismatchError : BlobError
  | rangeError : BlobError
  | typeMismatchError : BlobError
  | indexOutOfRangeError : BlobError
  | outOfRangeError : BlobError
  | fileNotFoundError : BlobError
  | fileEmptyError : BlobError
  | truncatedDataError : BlobError
deriving DecidableEq, Repr

/-- Modelled from the spec: the closed enumeration of supported data types
(section 6): signed/unsigned 4-bit packed integers, 8/16/32-bit integers
(signed and unsigned), 16/32/64-bit floating point. -/
inductive BlobDataType where
  | int4 : BlobDataType
  | uint4 : BlobDataType
  | int8 : BlobDataType
  | uint8 : BlobDataType
  | int16 : BlobDataType
  | uint16 : BlobDataType
  | int32 : BlobDataType
  | uint32 : BlobDataType
  | float16 : BlobDataType
  | float32 : BlobDataType
  | float64 : BlobDataType
deriving DecidableEq, Repr

/-- Modelled from the spec: the packed bit width of each supported data type. -/
def BlobDataType.bitWidth : BlobDataType → Nat
  | .int4 => 4
  | .uint4 => 4
  | .int8 => 8
  | .uint8 => 8
  | .int16 => 16
  | .uint16 => 16
  | .int32 => 32
  | .uint32 => 32
  | .float16 => 16
  | .float32 => 32
  | .float64 => 64

/-- Modelled from the spec: whether decoding performs two's-complement sign
extension (the signed integer types). Floating point values are modelled by
their raw bit patterns. -/
def BlobDataType.isSigned : BlobDataType → Bool
  | .int4 => true
  | .int8 => true
  | .int16 => true
  | .int32 => true
  | _ => false

/-- Modelled from the spec: the byte size of count elements of a data type,
the element count scaled by the packed bit width and rounded up to whole
bytes. -/
def sizeInBytes (dt : BlobDataType) (count : Nat) : Nat :=
  (count * dt.bitWidth + 7) / 8

/-- Modelled from the spec: the fixed alignment constant, an implementation
choice documented once; every data offset and the metadata-table offset is a
multiple of it. -/
def DefaultStorageAlignment : Nat := 64

/-- Modelled from the spec: the byte offset where the data stream begins,
directly after the aligned file header. -/
def dataStart : Nat := 64

/-- Modelled from the spec: round a byte offset up to the next multiple of
the alignment constant. -/
def padUp (x : Nat) : Nat :=
  ((x + (DefaultStorageAlignment - 1)) / DefaultStorageAlignment) *
    DefaultStorageAlignment

/-- Modelled from the spec: one metadata record, holding the element data
type, the element count, the absolute byte offset of the data, and its byte
size (section 3, BlobMetadataRecord). -/
structure BlobMetadataRecord where
  dtype : BlobDataType
  elementCount : Nat
  offset : Nat
  byteSize : Nat
deriving DecidableEq, Repr

/-- Modelled from the spec: the state of a StorageWriter: the metadata
records appended so far and the bytes of the data stream, which starts at
absolute offset dataStart. -/
structure WriterState where
  records : List BlobMetadataRecord
  data : List Nat
deriving DecidableEq, Repr

/-- Modelled from the spec: a freshly created blob file has a header
placeholder and no records (section 3, lifecycle). -/
def writerEmpty : WriterState := ⟨[], []⟩

/-- Modelled from the spec: appendBlob(dataType, elementCount, rawBytes)
fails with SizeMismatchError unless the rawBytes length matches the element
count scaled by the packed bit width rounded up to whole bytes; otherwise it
pads the stream to the alignment boundary, writes the data there, records a
new metadata entry, and returns the assigned index (section 4.4). -/
def StorageWriter.appendBlob (s : WriterState) (dt : BlobDataType)
    (count : Nat) (raw : List Nat) : Except BlobError (Nat × WriterState) :=
  if raw.length = sizeInBytes dt count then
    let cur := dataStart + s.data.length
    let off := padUp cur
    let padN := off - cur
    Except.ok (s.records.length,
      ⟨s.records ++ [⟨dt, count, off, raw.length⟩],
       s.data ++ (List.replicate padN 0 ++ raw)⟩)
  else
    Except.error BlobError.sizeMismatchError

/-- Modelled from the spec: appending a sequence of blobs in order, stopping
at the first failure. -/
def StorageWriter.appendBlobs (s : WriterState) :
    List (BlobDataType × Nat × List Nat) → Except BlobError WriterState
  | [] => Except.ok s
  | (dt, count, raw) :: rest =>
    match StorageWriter.appendBlob s dt count raw with
    | Except.ok (_, s') => StorageWriter.appendBlobs s' rest
    | Except.error e => Except.error e

/-- Modelled from the spec: a finalized blob file: the header has been
rewritten with the true record count, so the reader sees exactly the
records and data of the writer (section 3, lifecycle). -/
structure BlobFile where
  records : List BlobMetadataRecord
  data : List Nat
deriving DecidableEq, Repr

/-- Modelled from the spec: close()/finalize() rewrites the header with the
final record count and yields the on-disk file. -/
def StorageWriter.finalize (s : WriterState) : BlobFile :=
  ⟨s.records, s.data⟩

/-- Modelled from the spec: the offset of the metadata table in the
finalized file: the table is placed on the next alignment boundary after the
data stream so that append-mode growth never disturbs existing records. -/
def metadataOffset (s : WriterState) : Nat :=
  padUp (dataStart + s.data.length)

/-- Modelled from the spec: appending to an existing file reopens it and
continues numbering and byte layout from the prior end (section 4.4). -/
def StorageWriter.openAppend (f : BlobFile) : WriterState :=
  ⟨f.records, f.data⟩

/-- Modelled from the spec: getRecordCount() of a StorageReader over a
finalized file. -/
def StorageReader.getRecordCount (f : BlobFile) : Nat :=
  f.records.length

/-- Modelled from the spec: getMetadata(index), failing with
IndexOutOfRangeError for an invalid index. -/
def StorageReader.getMetadata (f : BlobFile) (idx : Nat) :
    Except BlobError BlobMetadataRecord :=
  match f.records.get? idx with
  | some r => Except.ok r
  | none => Except.error BlobError.indexOutOfRangeError

/-- Modelled from the spec: the raw bytes of one record inside the mapped
file, a zero-copy view of byteSize bytes starting at the record's offset in
the data stream. -/
def readRecordBytes (dataBytes : List Nat) (r : BlobMetadataRecord) :
    List Nat :=
  (dataBytes.drop (r.offset - dataStart)).take r.byteSize

/-- Modelled from the spec: getSpan(index) returns a zero-copy typed view of
the record's bytes; it fails with IndexOutOfRangeError for an invalid index,
with TypeMismatchError if the requested type does not match the record's
declared data type, and with a truncation error if the record's declared
extent exceeds the file (sections 4.5 and 7). -/
def StorageReader.getSpan (f : BlobFile) (idx : Nat) (dt : BlobDataType) :
    Except BlobError (List Nat) :=
  match f.records.get? idx with
  | none => Except.error BlobError.indexOutOfRangeError
  | some r =>
    if r.dtype = dt then
      if dataStart ≤ r.offset ∧
          r.offset - dataStart + r.byteSize ≤ f.data.length then
        Except.ok (readRecordBytes f.data r)
      else
        Except.error BlobError.truncatedDataError
    else
      Except.error BlobError.typeMismatchError

/-- Modelled from the spec: the 4-bit value stored at packed element index i
of a byte sequence: the low nibble of byte i/2 for even i, the high nibble
for odd i (sub-byte addressing by (byteIndex, bitShift) with mask-and-shift,
section 4.3). -/
def nibbleAt (bytes : List Nat) (i : Nat) : Nat :=
  if i % 2 = 0 then bytes.getD (i / 2) 0 % 16
  else bytes.getD (i / 2) 0 / 16 % 16

/-- Modelled from the spec: assemble k bytes starting at byte offset off as
a little-endian bit pattern. -/
def leBits (bytes : List Nat) (off : Nat) : Nat → Nat
  | 0 => 0
  | k + 1 => bytes.getD off 0 % 256 + 256 * leBits bytes (off + 1) k

/-- Modelled from the spec: the raw bit pattern of element i of a byte
sequence holding packed elements of type dt. -/
def elemBits (dt : BlobDataType) (bytes : List Nat) (i : Nat) : Nat :=
  if dt.bitWidth = 4 then nibbleAt bytes i
  else leBits bytes (i * (dt.bitWidth / 8)) (dt.bitWidth / 8)

/-- Modelled from the spec: decode a raw bit pattern of type dt into a
value: two's-complement sign extension for the signed integer types, the
raw pattern otherwise (floating point values are modelled by their bit
patterns). -/
def decodeElem (dt : BlobDataType) (bits : Nat) : Int :=
  if dt.isSigned then
    if bits % 2 ^ dt.bitWidth < 2 ^ (dt.bitWidth - 1) then
      (bits % 2 ^ dt.bitWidth : Nat)
    else
      (bits % 2 ^ dt.bitWidth : Nat) - 2 ^ dt.bitWidth
  else
    (bits : Int)

/-- Modelled from the spec: the decoded values of count packed elements of
type dt held in a byte sequence: what iterating the span of that record
yields. -/
def decodeValues (dt : BlobDataType) (count : Nat) (bytes : List Nat) :
    List Int :=
  (List.range count).map (fun i => decodeElem dt (elemBits dt bytes i))

/- ===== Span sub-byte element access, modelled from the specification ===== -/

/-- Modelled from the spec: a Span's backing buffer of bytes, addressed by
byte index; a non-owning view shares this buffer by reference. -/
def SpanBuf : Type := Nat → Nat

/-- Modelled from the spec: reading the 4-bit unsigned packed element at
index i of a Span buffer: mask-and-shift inside byte i/2, low nibble for
even i and high nibble for odd i. -/
def Span.uValueAt (mem : SpanBuf) (i : Nat) : Nat :=
  if i % 2 = 0 then mem (i / 2) % 16 else mem (i / 2) / 16 % 16

/-- Modelled from the spec: writing the 4-bit unsigned packed element at
index i of a Span buffer: replace only the addressed nibble of byte i/2,
leaving the other nibble of that byte and every other byte unchanged. -/
def Span.uSetValueAt (mem : SpanBuf) (i v : Nat) : SpanBuf :=
  fun k =>
    if k = i / 2 then
      if i % 2 = 0 then mem (i / 2) / 16 % 16 * 16 + v % 16
      else v % 16 * 16 + mem (i / 2) % 16
    else mem k

/-- Modelled from the spec: reading the 4-bit signed packed element at
index i: the nibble with two's-complement sign extension. -/
def Span.iValueAt (mem : SpanBuf) (i : Nat) : Int :=
  let n := Span.uValueAt mem i
  if n < 8 then (n : Int) else (n : Int) - 16

/-- Modelled from the spec: writing the 4-bit signed packed element at
index i: encode the value in [-8, 7] as its two's-complement nibble and
store it by mask-and-shift. -/
def Span.iSetValueAt (mem : SpanBuf) (i : Nat) (v : Int) : SpanBuf :=
  Span.uSetValueAt mem i ((v + 16).toNat % 16)

/- ===== Span slicing, modelled from the specification ===== -/

/-- Modelled from the spec: a Span descriptor: base address, shape (ordered
extents) and strides, with one stride per dimension (section 3). Copying it
copies only this descriptor; the buffer is shared. -/
structure SpanDesc where
  base : Nat
  shape : List Nat
  strides : List Nat
deriving DecidableEq, Repr

/-- Modelled from the spec: slicing dimension d of a span by the bounded
range [lo, hi): the extent of d becomes hi - lo and the base advances by lo
strides; out-of-range bounds (including an invalid dimension) fail with
RangeError; lo = hi is legal and yields a valid empty span (section 4.3). -/
def SpanDesc.sliceDim (s : SpanDesc) (d lo hi : Nat) :
    Except BlobError SpanDesc :=
  match s.shape.get? d, s.strides.get? d with
  | some n, some st =>
    if lo ≤ hi ∧ hi ≤ n then
      Except.ok ⟨s.base + lo * st, s.shape.set d (hi - lo), s.strides⟩
    else
      Except.error BlobError.rangeError
  | _, _ => Except.error BlobError.rangeError

/- ===== MemoryMappedFileReader, modelled from the specification ===== -/

/-- Modelled from the spec: a file system as a partial map from paths to
file contents. -/
def FileSystem : Type := String → Option (List Nat)

/-- Modelled from the spec: open(path) maps the whole file read-only; it
fails with FileNotFoundError if the file is missing and FileEmptyError if it
has zero length (section 4.2). -/
def MemoryMappedFileReader.openFile (fs : FileSystem) (path : String) :
    Except BlobError (List Nat) :=
  match fs path with
  | none => Except.error BlobError.fileNotFoundError
  | some bytes =>
    if bytes.length = 0 then Except.error BlobError.fileEmptyError
    else Except.ok bytes

/-- Modelled from the spec: getBytes(offset, length) returns a bounded view
of exactly those bytes, failing with OutOfRangeError if offset + length
exceeds the file size (section 4.2). -/
def MemoryMappedFileReader.getBytes (bytes : List Nat) (off len : Nat) :
    Except BlobError (List Nat) :=
  if off + len ≤ bytes.length then Except.ok ((bytes.drop off).take len)
  else Except.error BlobError.outOfRangeError

/- ===== Writer reachability ===== -/

/-- Modelled from the spec: the writer states of blob files produced by a
StorageWriter: a file starts empty and grows only by successful appendBlob
calls (section 3, lifecycle). -/
inductive ReachableWriter : WriterState → Prop where
  | base : ReachableWriter writerEmpty
  | step {s s' : WriterState} {dt : BlobDataType} {count i : Nat}
      {raw : List Nat} :
      ReachableWriter s →
      StorageWriter.appendBlob s dt count raw = Except.ok (i, s') →
      ReachableWriter s'

/-- Modelled from the spec: a blob file produced by a StorageWriter: the
finalization of some reachable writer state. -/
def ProducedFile (f : BlobFile) : Prop :=
  ∃ w : WriterState, ReachableWriter w ∧ StorageWriter.finalize w = f

/-- Modelled from the spec: structural well-formedness of a writer state:
every record's data offset is aligned, lies at or after the data stream
start, and its declared extent lies within the data written so far. -/
def RecordsWF (s : WriterState) : Prop :=
  ∀ r ∈ s.records,
    r.offset % DefaultStorageAlignment = 0 ∧
    dataStart ≤ r.offset ∧
    r.offset - dataStart + r.byteSize ≤ s.data.length

/-- A sample test name from MLModelTests.hpp, used to instantiate the
expansion property. -/
def sampleTestName : String := "testStorageWriterTestsAlignment"

/-- A sample file path, used to instantiate the file reader contract. -/
def samplePath : String := "weights/weight.bin"

/- ===== Helper lemmas ===== -/

theorem padUp_ge (x : Nat) : x ≤ padUp x := by
  unfold padUp DefaultStorageAlignment
  omega

theorem padUp_mod (x : Nat) : padUp x % DefaultStorageAlignment = 0 := by
  unfold padUp DefaultStorageAlignment
  omega

theorem appendBlob_ok {s : WriterState} {dt : BlobDataType} {count idx : Nat}
    {raw : List Nat} {s' : WriterState}
    (h : StorageWriter.appendBlob s dt count raw = Except.ok (idx, s')) :
    raw.length = sizeInBytes dt count ∧
    idx = s.records.length ∧
    s'.records = s.records ++
      [⟨dt, count, padUp (dataStart + s.data.length), raw.length⟩] ∧
    s'.data = s.data ++
      (List.replicate (padUp (dataStart + s.data.length) -
        (dataStart + s.data.length)) 0 ++ raw) := by
  unfold StorageWriter.appendBlob at h
  split at h
  · rename_i hlen
    simp only [Except.ok.injEq, Prod.mk.injEq] at h
    exact ⟨hlen, h.1.symm, by rw [← h.2], by rw [← h.2]⟩
  · exact absurd h (by simp)

/- ===== Claim theorems ===== -/

/-- Claim C8: MLMODEL_SPECIFICATION_VERSION_NEWEST equals
MLMODEL_SPECIFICATION_VERSION_IOS26, whose value is 10, and
MLMODEL_SPECIFICATION_VERSION expands to
MLMODEL_SPECIFICATION_VERSION_NEWEST, so the default model specification
version of the library is the integer 10. -/
theorem c8_defaultSpecificationVersion :
    MLMODEL_SPECIFICATION_VERSION_NEWEST = MLMODEL_SPECIFICATION_VERSION_IOS26 ∧
    MLMODEL_SPECIFICATION_VERSION_IOS26 = 10 ∧
    MLMODEL_SPECIFICATION_VERSION = MLMODEL_SPECIFICATION_VERSION_NEWEST ∧
    MLMODEL_SPECIFICATION_VERSION = 10 :=
  ⟨rfl, rfl, rfl, rfl⟩

/-- Claim C9: the ten specification-version constants in Globals.hpp are the
consecutive integers 1 through 10 in chronological OS-release order, so they
are pairwise distinct and each later release has a strictly larger version
number. -/
theorem c9_versionConstantsConsecutive :
    mlmodelSpecificationVersions = [1, 2, 3, 4, 5, 6, 7, 8, 9, 10] ∧
    mlmodelSpecificationVersions.Pairwise (fun a b => a < b) ∧
    mlmodelSpecificationVersions.Nodup := by
  refine ⟨rfl, ?_, ?_⟩ <;> decide

/-- Claim C10: when the MLMODEL_RUN_TEST symbol is not defined, every test
name listed in MLModelTests.hpp via MLMODEL_TEST expands through
MLMODEL_DECLARE_TEST to the pure forward declaration of a zero-argument
function returning int, and the whole header contributes exactly those
declarations and nothing else. -/
theorem c10_testDeclarationExpansion :
    (∀ t ∈ mlmodelTestNames,
      MLMODEL_TEST none t = MLMODEL_DECLARE_TEST t ∧
      isIntNullaryFwdDecl (MLMODEL_TEST none t) t = true) ∧
    headerExpansion none =
      (mlmodelTestNames.map MLMODEL_DECLARE_TEST).flatten := by
  refine ⟨fun t _ => ⟨rfl, ?_⟩, rfl⟩
  simp [isIntNullaryFwdDecl, MLMODEL_TEST, MLMODEL_DECLARE_TEST]

/-- Witness for C10 at a concrete listed test name. -/
theorem c10_witness :
    sampleTestName ∈ mlmodelTestNames ∧
    MLMODEL_TEST none sampleTestName = MLMODEL_DECLARE_TEST sampleTestName ∧
    isIntNullaryFwdDecl (MLMODEL_TEST none sampleTestName) sampleTestName =
      true :=
  ⟨by decide, c10_testDeclarationExpansion.1 sampleTestName (by decide)⟩

theorem uValueAt_uSetValueAt_self (mem : SpanBuf) (i u : Nat) (h : u ≤ 15) :
    Span.uValueAt (Span.uSetValueAt mem i u) i = u := by
  simp only [Span.uValueAt, Span.uSetValueAt, if_pos rfl]
  split_ifs <;> omega

theorem uValueAt_uSetValueAt_other (mem : SpanBuf) (i j u : Nat)
    (h : j ≠ i) :
    Span.uValueAt (Span.uSetValueAt mem i u) j = Span.uValueAt mem j := by
  simp only [Span.uValueAt, Span.uSetValueAt]
  rcases eq_or_ne (j / 2) (i / 2) with hb | hb
  · have hb' : j / 2 = i / 2 := hb
    rw [hb]
    split_ifs <;> omega
  · simp only [if_neg hb]

theorem iValueAt_iSetValueAt_self (mem : SpanBuf) (i : Nat) (v : Int)
    (hlo : -8 ≤ v) (hhi : v ≤ 7) :
    Span.iValueAt (Span.iSetValueAt mem i v) i = v := by
  simp only [Span.iValueAt, Span.iSetValueAt]
  rw [uValueAt_uSetValueAt_self mem i ((v + 16).toNat % 16) (by omega)]
  split_ifs <;> omega

theorem iValueAt_iSetValueAt_other (mem : SpanBuf) (i j : Nat) (v : Int)
    (h : j ≠ i) :
    Span.iValueAt (Span.iSetValueAt mem i v) j = Span.iValueAt mem j := by
  simp only [Span.iValueAt, Span.iSetValueAt]
  rw [uValueAt_uSetValueAt_other mem i j _ h]

/-- Claim C2: for the 4-bit signed packed element type, writing any value in
[-8, 7] at any index through a Span and reading that index back returns the
value; for the 4-bit unsigned packed type the same holds for any value in
[0, 15]; and writing one 4-bit element never changes any other element, in
particular not the one packed in the same byte. -/
theorem c2_subBytePacking (mem : SpanBuf) (i j : Nat) (v : Int) (u : Nat) :
    (-8 ≤ v → v ≤ 7 →
      Span.iValueAt (Span.iSetValueAt mem i v) i = v) ∧
    (u ≤ 15 →
      Span.uValueAt (Span.uSetValueAt mem i u) i = u) ∧
    (j ≠ i →
      Span.uValueAt (Span.uSetValueAt mem i u) j = Span.uValueAt mem j ∧
      Span.iValueAt (Span.iSetValueAt mem i v) j = Span.iValueAt mem j) :=
  ⟨fun hlo hhi => iValueAt_iSetValueAt_self mem i v hlo hhi,
   fun hu => uValueAt_uSetValueAt_self mem i u hu,
   fun hj => ⟨uValueAt_uSetValueAt_other mem i j u hj,
              iValueAt_iSetValueAt_other mem i j v hj⟩⟩

/-- Witness for C2: write and read back 4-bit values in one byte of a
concrete buffer, both nibbles, checking the sibling nibble is untouched. -/
theorem c2_witness :
    ((-8 : Int) ≤ -5 ∧ (-5 : Int) ≤ 7 ∧ (11 : Nat) ≤ 15 ∧ (3 : Nat) ≠ 2) ∧
    Span.iValueAt (Span.iSetValueAt (fun _ => 0) 2 (-5)) 2 = -5 ∧
    Span.uValueAt (Span.uSetValueAt (fun _ => 0) 2 11) 2 = 11 ∧
    (Span.uValueAt (Span.uSetValueAt (fun _ => 0) 2 11) 3 =
       Span.uValueAt (fun _ => 0) 3 ∧
     Span.iValueAt (Span.iSetValueAt (fun _ => 0) 2 (-5)) 3 =
       Span.iValueAt (fun _ => 0) 3) :=
  ⟨by decide,
   (c2_subBytePacking (fun _ => 0) 2 3 (-5) 11).1 (by decide) (by decide),
   (c2_subBytePacking (fun _ => 0) 2 3 (-5) 11).2.1 (by decide),
   (c2_subBytePacking (fun _ => 0) 2 3 (-5) 11).2.2 (by decide)⟩

/-- Claim C5: appendBlob fails with SizeMismatchError exactly when the raw
byte length differs from the element count scaled by the type's packed bit
width rounded up to whole bytes, and on success it returns the newly
assigned record index, the number of records already present. -/
theorem c5_appendBlobSizeCheck (s : WriterState) (dt : BlobDataType)
    (count : Nat) (raw : List Nat) :
    (StorageWriter.appendBlob s dt count raw =
        Except.error BlobError.sizeMismatchError ↔
      raw.length ≠ sizeInBytes dt count) ∧
    (raw.length = sizeInBytes dt count →
      ∃ s', StorageWriter.appendBlob s dt count raw =
        Except.ok (s.records.length, s')) := by
  unfold StorageWriter.appendBlob
  by_cases hlen : raw.length = sizeInBytes dt count
  · refine ⟨?_, fun _ => ⟨_, by rw [if_pos hlen]⟩⟩
    rw [if_pos hlen]
    simp [hlen]
  · refine ⟨?_, fun hc => absurd hc hlen⟩
    rw [if_neg hlen]
    simp [hlen]

/-- Witness for C5: a two-byte payload is rejected for three uint8 elements,
and the matching three-byte payload is accepted with index 0. -/
theorem c5_witness :
    StorageWriter.appendBlob writerEmpty BlobDataType.uint8 3 [7, 7] =
      Except.error BlobError.sizeMismatchError ∧
    ∃ s', StorageWriter.appendBlob writerEmpty BlobDataType.uint8 3 [7, 8, 9] =
      Except.ok (writerEmpty.records.length, s') :=
  ⟨(c5_appendBlobSizeCheck writerEmpty BlobDataType.uint8 3 [7, 7]).1.mpr
     (by decide),
   (c5_appendBlobSizeCheck writerEmpty BlobDataType.uint8 3 [7, 8, 9]).2
     (by decide)⟩

/-- Claim C7: for an open memory-mapped reader over a file of a given size,
getBytes fails with OutOfRangeError exactly when offset + length exceeds the
size and otherwise returns a bounded view of exactly those bytes; and open
fails with FileNotFoundError for a missing file and with FileEmptyError for
a zero-length file. -/
theorem c7_mmapReaderContract (fs : FileSystem) (path : String)
    (bytes bytes0 : List Nat) (off len : Nat) :
    (bytes.length < off + len →
      MemoryMappedFileReader.getBytes bytes off len =
        Except.error BlobError.outOfRangeError) ∧
    (off + len ≤ bytes.length →
      ∃ v, MemoryMappedFileReader.getBytes bytes off len = Except.ok v ∧
        v.length = len ∧ ∀ k, k < len → v[k]? = bytes[off + k]?) ∧
    (fs path = none →
      MemoryMappedFileReader.openFile fs path =
        Except.error BlobError.fileNotFoundError) ∧
    (fs path = some bytes0 → bytes0.length = 0 →
      MemoryMappedFileReader.openFile fs path =
        Except.error BlobError.fileEmptyError) := by
  refine ⟨?_, ?_, ?_, ?_⟩
  · intro h
    unfold MemoryMappedFileReader.getBytes
    rw [if_neg (by omega)]
  · intro h
    refine ⟨(bytes.drop off).take len, ?_, ?_, ?_⟩
    · unfold MemoryMappedFileReader.getBytes
      rw [if_pos h]
    · simp only [List.length_take, List.length_drop]
      omega
    · intro k hk
      rw [List.getElem?_take_of_lt hk, List.getElem?_drop]
  · intro h
    unfold MemoryMappedFileReader.openFile
    rw [h]
  · intro h h0
    unfold MemoryMappedFileReader.openFile
    rw [h]
    simp [h0]

/-- Witness for C7 on a concrete three-byte file, an oversized read, an
in-bounds read, a missing path and an empty file. -/
theorem c7_witness :
    MemoryMappedFileReader.getBytes [5, 6, 7] 2 2 =
      Except.error BlobError.outOfRangeError ∧
    (∃ v, MemoryMappedFileReader.getBytes [5, 6, 7] 1 2 = Except.ok v ∧
      v.length = 2 ∧ ∀ k, k < 2 → v[k]? = ([5, 6, 7] : List Nat)[1 + k]?) ∧
    MemoryMappedFileReader.openFile (fun _ => none) samplePath =
      Except.error BlobError.fileNotFoundError ∧
    MemoryMappedFileReader.openFile (fun _ => some []) samplePath =
      Except.error BlobError.fileEmptyError :=
  ⟨(c7_mmapReaderContract (fun _ => none) samplePath [5, 6, 7] [] 2 2).1
     (by decide),
   (c7_mmapReaderContract (fun _ => none) samplePath [5, 6, 7] [] 1 2).2.1
     (by decide),
   (c7_mmapReaderContract (fun _ => none) samplePath [5, 6, 7] [] 1 2).2.2.1
     rfl,
   (c7_mmapReaderContract (fun _ => some []) samplePath [5, 6, 7] [] 1 2).2.2.2
     rfl rfl⟩

/-- Claim C4: slicing a dimension to the bounded range [lo, hi) and then
slicing the result to [0, hi-lo) yields the same span as slicing directly;
slicing with lo = hi succeeds and yields a valid empty span; and
out-of-bounds bounds fail with RangeError. -/
theorem c4_slicingLaws (s s₁ : SpanDesc) (d lo hi n : Nat)
    (hs : s.shape.get? d = some n) :
    (s.sliceDim d lo hi = Except.ok s₁ →
      s₁.sliceDim d 0 (hi - lo) = Except.ok s₁) ∧
    (lo ≤ n → (∃ st, s.strides.get? d = some st) →
      ∃ s₂, s.sliceDim d lo lo = Except.ok s₂ ∧
        s₂.shape.get? d = some 0) ∧
    (n < hi → s.sliceDim d lo hi = Except.error BlobError.rangeError) := by
  obtain ⟨hd, -⟩ := List.get?_eq_some.mp hs
  refine ⟨?_, ?_, ?_⟩
  · intro h
    unfold SpanDesc.sliceDim at h
    split at h
    · rename_i n' st heq1 heq2
      split at h
      · rename_i hc
        simp only [Except.ok.injEq] at h
        subst h
        unfold SpanDesc.sliceDim
        simp only [List.get?_set_eq_of_lt _ hd, heq2]
        rw [if_pos ⟨Nat.zero_le _, le_refl _⟩]
        simp [List.set_set]
      · exact absurd h (by simp)
    · exact absurd h (by simp)
  · intro hlo hst
    obtain ⟨st, hst⟩ := hst
    unfold SpanDesc.sliceDim
    simp only [hs, hst]
    rw [if_pos ⟨le_refl lo, hlo⟩]
    exact ⟨_, rfl, by
      simp [List.get?_set_eq_of_lt _ hd, List.getElem?_set_eq_of_lt _ hd]⟩
  · intro hhi
    unfold SpanDesc.sliceDim
    cases hst : s.strides.get? d with
    | none => simp [hs, hst]
    | some st =>
      simp only [hs, hst]
      rw [if_neg (by omega)]

/-- Witness for C4 on a concrete rank-one span of extent 4: composing the
slices [1, 3) and [0, 2), the empty slice [1, 1), and the out-of-bounds
slice [1, 5). -/
theorem c4_witness :
    SpanDesc.sliceDim ⟨1, [2], [1]⟩ 0 0 2 = Except.ok ⟨1, [2], [1]⟩ ∧
    (∃ s₂, SpanDesc.sliceDim ⟨0, [4], [1]⟩ 0 1 1 = Except.ok s₂ ∧
      s₂.shape.get? 0 = some 0) ∧
    SpanDesc.sliceDim ⟨0, [4], [1]⟩ 0 1 5 = Except.error BlobError.rangeError :=
  ⟨(c4_slicingLaws ⟨0, [4], [1]⟩ ⟨1, [2], [1]⟩ 0 1 3 4 rfl).1 rfl,
   (c4_slicingLaws ⟨0, [4], [1]⟩ ⟨1, [2], [1]⟩ 0 1 3 4 rfl).2.1
     (by decide) ⟨1, rfl⟩,
   (c4_slicingLaws ⟨0, [4], [1]⟩ ⟨1, [2], [1]⟩ 0 1 5 4 rfl).2.2
     (by decide)⟩

/-- Claim C1: appending a blob, finalizing the writer and reopening with a
StorageReader, getSpan on the returned index yields exactly the appended
bytes, hence a span whose decoded values equal the original values; this
holds for every supported data type and every element count, in particular
0, 1, and counts spanning several alignment boundaries. -/
theorem c1_writeReadRoundTrip (s s' : WriterState) (dt : BlobDataType)
    (count idx : Nat) (raw : List Nat)
    (h : StorageWriter.appendBlob s dt count raw = Except.ok (idx, s')) :
    StorageReader.getSpan (StorageWriter.finalize s') idx dt =
      Except.ok raw ∧
    ∃ b, StorageReader.getSpan (StorageWriter.finalize s') idx dt =
        Except.ok b ∧
      decodeValues dt count b = decodeValues dt count raw := by
  obtain ⟨hlen, hidx, hrec, hdata⟩ := appendBlob_ok h
  have hcur : dataStart + s.data.length ≤ padUp (dataStart + s.data.length) :=
    padUp_ge _
  have hdlen : s'.data.length =
      s.data.length +
        (padUp (dataStart + s.data.length) - (dataStart + s.data.length)) +
        raw.length := by
    rw [hdata]
    simp [List.length_append, List.length_replicate]
    omega
  have hmain : StorageReader.getSpan (StorageWriter.finalize s') idx dt =
      Except.ok raw := by
    subst hidx
    unfold StorageReader.getSpan StorageWriter.finalize
    simp only [hrec, List.get?_concat_length, if_true]
    rw [if_pos ⟨by omega, by omega⟩]
    unfold readRecordBytes
    rw [hdata,
      show s.data ++ (List.replicate (padUp (dataStart + s.data.length) -
          (dataStart + s.data.length)) 0 ++ raw) =
        (s.data ++ List.replicate (padUp (dataStart + s.data.length) -
          (dataStart + s.data.length)) 0) ++ raw from
        (List.append_assoc _ _ _).symm]
    rw [List.drop_left' (by simp [List.length_append, List.length_replicate]; omega)]
    exact congrArg Except.ok (List.take_length raw)
  exact ⟨hmain, raw, hmain, rfl⟩

set_option maxRecDepth 4000 in
/-- Witness for C1: a 200-element uint8 blob, spanning several 64-byte
alignment boundaries, written into an empty file and read back. -/
theorem c1_witness :
    StorageReader.getSpan
        (StorageWriter.finalize
          ⟨[⟨BlobDataType.uint8, 200, 64, 200⟩], List.replicate 200 7⟩)
        0 BlobDataType.uint8 =
      Except.ok (List.replicate 200 7) ∧
    ∃ b, StorageReader.getSpan
        (StorageWriter.finalize
          ⟨[⟨BlobDataType.uint8, 200, 64, 200⟩], List.replicate 200 7⟩)
        0 BlobDataType.uint8 = Except.ok b ∧
      decodeValues BlobDataType.uint8 200 b =
        decodeValues BlobDataType.uint8 200 (List.replicate 200 7) :=
  c1_writeReadRoundTrip writerEmpty
    ⟨[⟨BlobDataType.uint8, 200, 64, 200⟩], List.replicate 200 7⟩
    BlobDataType.uint8 200 0 (List.replicate 200 7) rfl

theorem appendBlob_wf {s s' : WriterState} {dt : BlobDataType}
    {count i : Nat} {raw : List Nat} (hwf : RecordsWF s)
    (h : StorageWriter.appendBlob s dt count raw = Except.ok (i, s')) :
    RecordsWF s' := by
  obtain ⟨hlen, hidx, hrec, hdata⟩ := appendBlob_ok h
  have hcur := padUp_ge (dataStart + s.data.length)
  have hdlen : s'.data.length =
      s.data.length +
        (padUp (dataStart + s.data.length) - (dataStart + s.data.length)) +
        raw.length := by
    rw [hdata]
    simp [List.length_append, List.length_replicate]
    omega
  intro r hr
  rw [hrec] at hr
  rcases List.mem_append.mp hr with hr | hr
  · obtain ⟨h1, h2, h3⟩ := hwf r hr
    exact ⟨h1, h2, by omega⟩
  · simp only [List.mem_singleton] at hr
    subst hr
    refine ⟨padUp_mod _, ?_, ?_⟩ <;> dsimp only <;> omega

theorem reachable_wf {s : WriterState} (h : ReachableWriter s) :
    RecordsWF s := by
  induction h with
  | base =>
    intro r hr
    simp [writerEmpty] at hr
  | step hprev happ ih => exact appendBlob_wf ih happ

/-- Claim C3: in every blob file produced by a StorageWriter, every record's
data offset and the metadata-table offset are exact multiples of the fixed
alignment constant. -/
theorem c3_alignmentInvariant (w : WriterState) (h : ReachableWriter w) :
    (∀ r ∈ w.records, r.offset % DefaultStorageAlignment = 0) ∧
    metadataOffset w % DefaultStorageAlignment = 0 :=
  ⟨fun r hr => (reachable_wf h r hr).1, padUp_mod _⟩

/-- Witness for C3: the writer state reached by appending one uint8 blob to
an empty file. -/
theorem c3_witness :
    (∀ r ∈ (⟨[⟨BlobDataType.uint8, 1, 64, 1⟩], [5]⟩ : WriterState).records,
      r.offset % DefaultStorageAlignment = 0) ∧
    metadataOffset ⟨[⟨BlobDataType.uint8, 1, 64, 1⟩], [5]⟩ %
      DefaultStorageAlignment = 0 :=
  c3_alignmentInvariant ⟨[⟨BlobDataType.uint8, 1, 64, 1⟩], [5]⟩
    (ReachableWriter.step ReachableWriter.base
      (rfl :
        StorageWriter.appendBlob writerEmpty BlobDataType.uint8 1 [5] =
          Except.ok (0, ⟨[⟨BlobDataType.uint8, 1, 64, 1⟩], [5]⟩)))

theorem readRecordBytes_append {data t : List Nat} {r : BlobMetadataRecord}
    (h : r.offset - dataStart + r.byteSize ≤ data.length) :
    readRecordBytes (data ++ t) r = readRecordBytes data r := by
  unfold readRecordBytes
  rw [List.drop_append_eq_append_drop,
    Nat.sub_eq_zero_of_le (by omega : r.offset - dataStart ≤ data.length),
    List.drop_zero, List.take_append_eq_append_take,
    show r.byteSize - (data.drop (r.offset - dataStart)).length = 0 from by
      simp only [List.length_drop]
      omega]
  simp

theorem appendBlobs_frame (reqs : List (BlobDataType × Nat × List Nat)) :
    ∀ s w' : WriterState,
    StorageWriter.appendBlobs s reqs = Except.ok w' →
    w'.records.length = s.records.length + reqs.length ∧
    (∃ t, w'.records = s.records ++ t) ∧
    (∃ t, w'.data = s.data ++ t) := by
  induction reqs with
  | nil =>
    intro s w' h
    simp only [StorageWriter.appendBlobs, Except.ok.injEq] at h
    subst h
    exact ⟨rfl, ⟨[], by simp⟩, ⟨[], by simp⟩⟩
  | cons req rest ih =>
    intro s w' h
    obtain ⟨dt, count, raw⟩ := req
    unfold StorageWriter.appendBlobs at h
    split at h
    · rename_i i s₁ heq
      obtain ⟨hlen, hidx, hrec, hdata⟩ := appendBlob_ok heq
      obtain ⟨hl, ⟨t1, ht1⟩, ⟨t2, ht2⟩⟩ := ih s₁ w' h
      refine ⟨?_, ?_, ?_⟩
      · rw [hl, hrec]
        simp [List.length_append]
        omega
      · exact ⟨[⟨dt, count, padUp (dataStart + s.data.length), raw.length⟩] ++
            t1, by rw [ht1, hrec, List.append_assoc]⟩
      · exact ⟨(List.replicate (padUp (dataStart + s.data.length) -
            (dataStart + s.data.length)) 0 ++ raw) ++ t2,
          by rw [ht2, hdata, List.append_assoc]⟩
    · exact absurd h (by simp)

/-- Claim C6: appending N blobs to a valid blob file already holding M
records and finalizing yields a file whose reader reports M + N records,
with the metadata and data bytes of each of the first M records unchanged. -/
theorem c6_appendGrowth (f : BlobFile)
    (reqs : List (BlobDataType × Nat × List Nat)) (w' : WriterState)
    (hf : ProducedFile f)
    (h : StorageWriter.appendBlobs (StorageWriter.openAppend f) reqs =
      Except.ok w') :
    StorageReader.getRecordCount (StorageWriter.finalize w') =
      StorageReader.getRecordCount f + reqs.length ∧
    (∀ j, j < f.records.length →
      (StorageWriter.finalize w').records.get? j = f.records.get? j) ∧
    (∀ r ∈ f.records,
      readRecordBytes (StorageWriter.finalize w').data r =
        readRecordBytes f.data r) := by
  obtain ⟨w, hw, hfin⟩ := hf
  have hopen : StorageWriter.openAppend f = w := by
    rw [← hfin]
    rfl
  rw [hopen] at h
  obtain ⟨hl, ⟨t1, ht1⟩, ⟨t2, ht2⟩⟩ := appendBlobs_frame reqs w w' h
  have hwf : RecordsWF w := reachable_wf hw
  subst hfin
  refine ⟨?_, ?_, ?_⟩
  · simpa [StorageReader.getRecordCount, StorageWriter.finalize] using hl
  · intro j hj
    show w'.records.get? j = w.records.get? j
    rw [List.get?_eq_getElem?, List.get?_eq_getElem?, ht1]
    exact List.getElem?_append_left hj
  · intro r hr
    obtain ⟨-, -, h3⟩ := hwf r hr
    show readRecordBytes w'.data r = readRecordBytes w.data r
    rw [ht2]
    exact readRecordBytes_append h3

/-- Witness for C6: appending one two-byte uint8 blob to the empty produced
file. -/
theorem c6_witness :
    StorageReader.getRecordCount
        (StorageWriter.finalize ⟨[⟨BlobDataType.uint8, 2, 64, 2⟩], [1, 2]⟩) =
      StorageReader.getRecordCount ⟨[], []⟩ + 1 ∧
    (∀ j, j < (⟨[], []⟩ : BlobFile).records.length →
      (StorageWriter.finalize
          ⟨[⟨BlobDataType.uint8, 2, 64, 2⟩], [1, 2]⟩).records.get? j =
        (⟨[], []⟩ : BlobFile).records.get? j) ∧
    (∀ r ∈ (⟨[], []⟩ : BlobFile).records,
      readRecordBytes
          (StorageWriter.finalize
            ⟨[⟨BlobDataType.uint8, 2, 64, 2⟩], [1, 2]⟩).data r =
        readRecordBytes (⟨[], []⟩ : BlobFile).data r) :=
  c6_appendGrowth ⟨[], []⟩ [(BlobDataType.uint8, 2, [1, 2])]
    ⟨[⟨BlobDataType.uint8, 2, 64, 2⟩], [1, 2]⟩
    ⟨writerEmpty, ReachableWriter.base, rfl⟩ rfl
